import Mathlib

/-!
Shallow embedding of the data-processing and calibration pipeline of the
ESP-NOW HID server (`data_processor.c`, the calibration-capable variant).

Modelling conventions:
* machine integers become `Nat` (`uint16_t`, `uint32_t`) or `Int`
  (`int64_t` timestamps, already divided by 1000 into milliseconds as the
  source does at every `esp_timer_get_time()` call site); the `uint32_t`
  statistics counters are reduced `% 2 ^ 32` where the source increments them;
* the module-level `static` variables become the fields of
  `DataProcessorState`, threaded explicitly through every operation;
* C pointers that may be `NULL` become `Option`: for out-parameters the
  `Option` argument carries the pointed-to value before the call (`none` =
  `NULL` pointer) and the corresponding `Option` result carries what the call
  wrote through it;
* the result of `usb_comm_send_report` is an input `sink_ret` (the collaborator
  may succeed or fail); the pair handed to it is returned as an
  `Option (Nat × Nat)` (`none` when no report is sent);
* the `static uint32_t log_counter` and all `ESP_LOG*` calls affect logging
  only and are omitted.
-/

/-- Mirrors `clutch_calibration_t` from `data_processor.h`: the committed
calibration range (`uint16_t` bounds plus the `calibrated` flag). -/
structure clutch_calibration_t where
  left_min : Nat
  left_max : Nat
  right_min : Nat
  right_max : Nat
  calibrated : Bool
deriving Repr, DecidableEq

/-- The `esp_err_t` values returned by `data_processor.c`. The source maps the
spec's `NotInitialized`, `AlreadyCalibrating` and `NotCalibrating` conditions
all to `ESP_ERR_INVALID_STATE`. -/
inductive esp_err_t where
  | ESP_OK
  | ESP_ERR_INVALID_STATE
  | ESP_ERR_INVALID_ARG
  | ESP_ERR_INVALID_SIZE
deriving Repr, DecidableEq

/-- The module-level `static` state of `data_processor.c` (lines 14-33). -/
structure DataProcessorState where
  s_is_initialized : Bool
  s_total_packets : Nat
  s_total_bytes : Nat
  s_calibration : clutch_calibration_t
  s_is_calibrating : Bool
  s_calibration_start_time : Int
  s_calibration_duration_ms : Nat
  s_calib_left_min : Nat
  s_calib_left_max : Nat
  s_calib_right_min : Nat
  s_calib_right_max : Nat
deriving Repr, DecidableEq

/-- The static initializers of `data_processor.c` (lines 14-33). -/
def initialState : DataProcessorState where
  s_is_initialized := false
  s_total_packets := 0
  s_total_bytes := 0
  s_calibration := { left_min := 0, left_max := 4095, right_min := 0,
                     right_max := 4095, calibrated := false }
  s_is_calibrating := false
  s_calibration_start_time := 0
  s_calibration_duration_ms := 0
  s_calib_left_min := 4095
  s_calib_left_max := 0
  s_calib_right_min := 4095
  s_calib_right_max := 0

/-- `data_processor_init` (lines 35-48). -/
def data_processor_init (s : DataProcessorState) : esp_err_t × DataProcessorState :=
  if s.s_is_initialized then (.ESP_OK, s)
  else (.ESP_OK, { s with s_total_packets := 0, s_total_bytes := 0,
                          s_is_initialized := true })

/-- The per-channel normalization inlined at lines 129-156 of
`data_processor_process_espnow_data`, factored out once since the source
repeats it verbatim for the left and right channels. When `calibrated` is
false the channel value stays `raw` (lines 129-130). In the final branch the
two failed guards force `mn < raw < mx`, so the truncating `Nat` subtraction
`mx - mn` coincides with the C `uint32_t` subtraction there, and `Nat`
division is the C truncating division. -/
def normalize_channel (calibrated : Bool) (raw mn mx : Nat) : Nat :=
  if calibrated then
    if raw ≤ mn then 0
    else if raw ≥ mx then 4095
    else
      let range := mx - mn
      if range > 0 then (raw - mn) * 4095 / range else raw
  else raw

/-- The little-endian parse and 12-bit clamp of lines 90-96: bytes 0-1 are the
left channel, bytes 2-3 the right channel, each then clamped to 4095. Bytes
are `uint8_t`, so `(data\x7b1\x7d << 8) | data\x7b0\x7d` is `b1 * 256 + b0`. The
`len >= 4` guard has already ensured indices 0-3 exist, so the `getD` default
is never taken. -/
def parse_clamped (payload : List Nat) : Nat × Nat :=
  let left0 := payload.getD 1 0 * 256 + payload.getD 0 0
  let right0 := payload.getD 3 0 * 256 + payload.getD 2 0
  (if left0 > 4095 then 4095 else left0,
   if right0 > 4095 then 4095 else right0)

/-- The calibration-observation block of lines 104-126: while a session is
active, widen the capture accumulators with the new sample, then commit the
accumulators into `s_calibration` and deactivate when the elapsed time has
reached the requested duration. -/
def calibration_observe (s : DataProcessorState) (lraw rraw : Nat)
    (now_ms : Int) : DataProcessorState :=
  if s.s_is_calibrating then
    let s := { s with
      s_calib_left_min := if lraw < s.s_calib_left_min then lraw else s.s_calib_left_min,
      s_calib_left_max := if lraw > s.s_calib_left_max then lraw else s.s_calib_left_max,
      s_calib_right_min := if rraw < s.s_calib_right_min then rraw else s.s_calib_right_min,
      s_calib_right_max := if rraw > s.s_calib_right_max then rraw else s.s_calib_right_max }
    if now_ms - s.s_calibration_start_time ≥ (s.s_calibration_duration_ms : Int) then
      { s with
        s_calibration := { left_min := s.s_calib_left_min,
                           left_max := s.s_calib_left_max,
                           right_min := s.s_calib_right_min,
                           right_max := s.s_calib_right_max,
                           calibrated := true },
        s_is_calibrating := false }
    else s
  else s

/-- `data_processor_process_espnow_data` (lines 63-168). `mac_addr` and `data`
are `none` when the C pointer is `NULL`; the C `len` argument is the length of
the delivered buffer, i.e. `payload.length` (`len <= 0` is the empty buffer).
The third component of the result is the pair handed to
`usb_comm_send_report`, or `none` when no report is sent; `sink_ret` is that
collaborator's return value, which the source only logs (lines 159-162). -/
def data_processor_process_espnow_data (s : DataProcessorState)
    (mac_addr : Option (List Nat)) (data : Option (List Nat))
    (now_ms : Int) (sink_ret : esp_err_t) :
    esp_err_t × DataProcessorState × Option (Nat × Nat) :=
  if !s.s_is_initialized then (.ESP_ERR_INVALID_STATE, s, none)
  else
    match mac_addr, data with
    | some _, some payload =>
      if payload.length = 0 then (.ESP_ERR_INVALID_ARG, s, none)
      else
        let s := { s with
          s_total_packets := (s.s_total_packets + 1) % 2 ^ 32,
          s_total_bytes := (s.s_total_bytes + payload.length) % 2 ^ 32 }
        if payload.length < 4 then (.ESP_ERR_INVALID_SIZE, s, none)
        else
          let raws := parse_clamped payload
          let s := calibration_observe s raws.1 raws.2 now_ms
          let left_clutch := normalize_channel s.s_calibration.calibrated raws.1
            s.s_calibration.left_min s.s_calibration.left_max
          let right_clutch := normalize_channel s.s_calibration.calibrated raws.2
            s.s_calibration.right_min s.s_calibration.right_max
          (.ESP_OK, s, some (left_clutch, right_clutch))
    | _, _ => (.ESP_ERR_INVALID_ARG, s, none)

/-- `data_processor_get_stats` (lines 170-179). Each `Option Nat` argument is
an out-pointer (`none` = `NULL`, `some v` = points at `v`); the result pair is
what each pointer holds after the call. The state is not part of the result:
the function reads it only. -/
def data_processor_get_stats (s : DataProcessorState)
    (total_packets : Option Nat) (total_bytes : Option Nat) :
    Option Nat × Option Nat :=
  (match total_packets with
   | some _ => some s.s_total_packets
   | none => none,
   match total_bytes with
   | some _ => some s.s_total_bytes
   | none => none)

/-- `data_processor_start_calibration` (lines 181-204). -/
def data_processor_start_calibration (s : DataProcessorState)
    (duration_ms : Nat) (now_ms : Int) : esp_err_t × DataProcessorState :=
  if !s.s_is_initialized then (.ESP_ERR_INVALID_STATE, s)
  else if s.s_is_calibrating then (.ESP_ERR_INVALID_STATE, s)
  else (.ESP_OK, { s with
    s_calib_left_min := 4095,
    s_calib_left_max := 0,
    s_calib_right_min := 4095,
    s_calib_right_max := 0,
    s_calibration_duration_ms := duration_ms,
    s_calibration_start_time := now_ms,
    s_is_calibrating := true })

/-- `data_processor_stop_calibration` (lines 206-225). -/
def data_processor_stop_calibration (s : DataProcessorState) :
    esp_err_t × DataProcessorState :=
  if !s.s_is_calibrating then (.ESP_ERR_INVALID_STATE, s)
  else (.ESP_OK, { s with
    s_calibration := { left_min := s.s_calib_left_min,
                       left_max := s.s_calib_left_max,
                       right_min := s.s_calib_right_min,
                       right_max := s.s_calib_right_max,
                       calibrated := true },
    s_is_calibrating := false })

/-- `data_processor_is_calibrating` (lines 227-230). -/
def data_processor_is_calibrating (s : DataProcessorState) : Bool :=
  s.s_is_calibrating

/-- `data_processor_get_calibration` (lines 232-240). `calib` is the caller's
out-buffer (`none` = `NULL`); the `Option` result is what that buffer holds
after the `memcpy`. -/
def data_processor_get_calibration (s : DataProcessorState)
    (calib : Option clutch_calibration_t) :
    esp_err_t × Option clutch_calibration_t :=
  match calib with
  | none => (.ESP_ERR_INVALID_ARG, none)
  | some _ => (.ESP_OK, some s.s_calibration)

/-- `data_processor_set_calibration` (lines 242-254). -/
def data_processor_set_calibration (s : DataProcessorState)
    (calib : Option clutch_calibration_t) : esp_err_t × DataProcessorState :=
  match calib with
  | none => (.ESP_ERR_INVALID_ARG, s)
  | some c => (.ESP_OK, { s with s_calibration := c })

/-- `data_processor_reset_calibration` (lines 256-267): unconditional, no
initialization check. -/
def data_processor_reset_calibration (s : DataProcessorState) :
    esp_err_t × DataProcessorState :=
  (.ESP_OK, { s with
    s_calibration := { left_min := 0, left_max := 4095, right_min := 0,
                       right_max := 4095, calibrated := false },
    s_is_calibrating := false })

/-- A freshly initialized processor, used as a concrete base state. -/
def readyState : DataProcessorState := (data_processor_init initialState).2

/-- A concrete 6-byte sender identifier. -/
def mac0 : List Nat := [0, 0, 0, 0, 0, 0]

/-- C1: with `calibrated=false`, `normalize_channel` is the identity on every raw
value in `[0,4095]`; with `calibrated=true` and `min < max` it returns 0 for
`raw ≤ min` (in particular at `raw = min`), 4095 for `raw ≥ max` (in
particular at `raw = max`), and the floor of `(raw - min) * 4095 / (max - min)`
strictly in between. -/
theorem c1_normalize_piecewise (raw mn mx : Nat) (hraw : raw ≤ 4095) :
    normalize_channel false raw mn mx = raw ∧
    (mn < mx →
      (raw ≤ mn → normalize_channel true raw mn mx = 0) ∧
      (mx ≤ raw → normalize_channel true raw mn mx = 4095) ∧
      (mn < raw → raw < mx →
        normalize_channel true raw mn mx = (raw - mn) * 4095 / (mx - mn)) ∧
      normalize_channel true mn mn mx = 0 ∧
      normalize_channel true mx mn mx = 4095) := by
  refine ⟨rfl, fun hlt => ⟨?_, ?_, ?_, ?_, ?_⟩⟩
  · intro h
    simp [normalize_channel, h]
  · intro h
    have h1 : ¬ raw ≤ mn := by omega
    simp [normalize_channel, h1, h]
  · intro h1 h2
    have hn : ¬ raw ≤ mn := by omega
    have hm : ¬ raw ≥ mx := by omega
    have hr : mx - mn > 0 := by omega
    simp [normalize_channel, hn, hm, hr]
  · simp [normalize_channel]
  · have h1 : ¬ mx ≤ mn := by omega
    simp [normalize_channel, h1]

/-- Witness for C1 at concrete inputs. -/
theorem c1_witness :
    normalize_channel false 7 3 9 = 7 ∧ normalize_channel true 5 3 9 = (5 - 3) * 4095 / (9 - 3) :=
  ⟨(c1_normalize_piecewise 7 3 9 (by decide)).1,
   ((c1_normalize_piecewise 5 3 9 (by decide)).2 (by decide)).2.2.1
     (by decide) (by decide)⟩

/-- C2 counterexample: with `calibrated=true` and the degenerate range
`min = max = 100`, the raw value 200 normalizes to 4095 (the `raw ≥ max`
branch of lines 136-137 fires), not to the claimed constant 0. -/
theorem c2_counterexample :
    normalize_channel true 200 100 100 = 4095 ∧ normalize_channel true 200 100 100 ≠ 0 := by
  decide

/-- C2 amended: with `calibrated=true` and a degenerate range `max = min`,
`normalize_channel` never divides by zero and returns one of two defined constants:
0 when `raw ≤ min` and 4095 when `raw > min` (the division branch is
unreachable because the first two guards cover every raw value). -/
theorem c2_degenerate_range (m raw : Nat) :
    normalize_channel true raw m m = if raw ≤ m then 0 else 4095 := by
  by_cases h : raw ≤ m
  · simp [normalize_channel, h]
  · have h2 : raw ≥ m := by omega
    simp [normalize_channel, h, h2]

/-- Helper: `calibration_observe` never touches the statistics counters. -/
theorem calibration_observe_counters (s : DataProcessorState) (lraw rraw : Nat)
    (now_ms : Int) :
    (calibration_observe s lraw rraw now_ms).s_total_packets = s.s_total_packets ∧
    (calibration_observe s lraw rraw now_ms).s_total_bytes = s.s_total_bytes := by
  simp only [calibration_observe]
  split
  · split <;> simp
  · simp

/-- Helper: the normalized output never exceeds 4095 when the raw input is
within the 12-bit range, for every calibration state (including inverted or
degenerate committed ranges). -/
theorem normalize_channel_le (calibrated : Bool) (raw mn mx : Nat)
    (h : raw ≤ 4095) : normalize_channel calibrated raw mn mx ≤ 4095 := by
  cases calibrated
  · simpa [normalize_channel] using h
  · by_cases h1 : raw ≤ mn
    · simp [normalize_channel, h1]
    · by_cases h2 : raw ≥ mx
      · simp [normalize_channel, h1, h2]
      · have hr : 0 < mx - mn := by omega
        have hsub : raw - mn ≤ mx - mn := by omega
        have hd : (raw - mn) * 4095 / (mx - mn) ≤ 4095 := by
          calc (raw - mn) * 4095 / (mx - mn)
              ≤ (mx - mn) * 4095 / (mx - mn) :=
                Nat.div_le_div_right (Nat.mul_le_mul_right 4095 hsub)
            _ = 4095 := Nat.mul_div_cancel_left 4095 hr
        simp [normalize_channel, h1, h2, hr, hd]

/-- Helper: both parsed channel values are already clamped to 4095. -/
theorem parse_clamped_le (payload : List Nat) :
    (parse_clamped payload).1 ≤ 4095 ∧ (parse_clamped payload).2 ≤ 4095 := by
  simp only [parse_clamped]
  constructor <;> split <;> omega

/-- C3: on an initialized state, a non-null payload of length 1, 2 or 3 (with
a non-null sender) returns `ESP_ERR_INVALID_SIZE`, increments `s_total_packets`
by 1 and `s_total_bytes` by the payload length (modulo the `uint32_t` width),
sends nothing to the Report Sink, and leaves every other field — the committed
calibration, the session flag and the capture accumulators — unchanged. -/
theorem c3_undersized_payload (s : DataProcessorState) (mac payload : List Nat)
    (hinit : s.s_is_initialized = true)
    (hlen : payload.length = 1 ∨ payload.length = 2 ∨ payload.length = 3)
    (now_ms : Int) (sink_ret : esp_err_t) :
    data_processor_process_espnow_data s (some mac) (some payload) now_ms sink_ret =
      (.ESP_ERR_INVALID_SIZE,
       { s with s_total_packets := (s.s_total_packets + 1) % 2 ^ 32,
                s_total_bytes := (s.s_total_bytes + payload.length) % 2 ^ 32 },
       none) := by
  have h0 : ¬ payload.length = 0 := by rcases hlen with h | h | h <;> omega
  have h4 : payload.length < 4 := by rcases hlen with h | h | h <;> omega
  simp [data_processor_process_espnow_data, hinit, h0, h4]

/-- Witness for C3: a 3-byte payload on a fresh state. -/
theorem c3_witness :
    data_processor_process_espnow_data readyState (some mac0) (some [9, 9, 9])
        5 .ESP_OK =
      (.ESP_ERR_INVALID_SIZE,
       { readyState with
           s_total_packets := (readyState.s_total_packets + 1) % 2 ^ 32,
           s_total_bytes := (readyState.s_total_bytes + [9, 9, 9].length) % 2 ^ 32 },
       none) :=
  c3_undersized_payload readyState mac0 [9, 9, 9] rfl (Or.inr (Or.inr rfl))
    5 .ESP_OK

/-- C4: starting a session on a fresh state and feeding the raw pairs
(100,50), (200,4000), (50,10) well inside the requested window, then calling
`data_processor_stop_calibration`, commits `left_min=50`, `left_max=200`,
`right_min=10`, `right_max=4000` with `calibrated=true` and deactivates the
session; and on any state with no active session, stop fails with
`ESP_ERR_INVALID_STATE` (the source's encoding of `NotCalibrating`) and
changes nothing. -/
theorem c4_stop_commits :
    (let s1 := (data_processor_start_calibration readyState 10000 0).2
     let s2 := (data_processor_process_espnow_data s1 (some mac0)
       (some [100, 0, 50, 0]) 1 .ESP_OK).2.1
     let s3 := (data_processor_process_espnow_data s2 (some mac0)
       (some [200, 0, 160, 15]) 2 .ESP_OK).2.1
     let s4 := (data_processor_process_espnow_data s3 (some mac0)
       (some [50, 0, 10, 0]) 3 .ESP_OK).2.1
     let r := data_processor_stop_calibration s4
     r.1 = .ESP_OK ∧
     r.2.s_calibration = { left_min := 50, left_max := 200, right_min := 10,
                           right_max := 4000, calibrated := true } ∧
     r.2.s_is_calibrating = false) ∧
    ∀ s : DataProcessorState, s.s_is_calibrating = false →
      data_processor_stop_calibration s = (.ESP_ERR_INVALID_STATE, s) := by
  constructor
  · decide
  · intro s h
    simp [data_processor_stop_calibration, h]

/-- Witness for C4: stop on a fresh, non-calibrating state fails. -/
theorem c4_witness :
    data_processor_stop_calibration readyState =
      (.ESP_ERR_INVALID_STATE, readyState) :=
  c4_stop_commits.2 readyState rfl

/-- C5: while a session is active, `data_processor_start_calibration` fails
with `ESP_ERR_INVALID_STATE` (the source's encoding of `AlreadyCalibrating`)
and returns the state untouched — committed range and capture accumulators
included; with no active session on an initialized state it resets the capture
accumulators to the inverted extremes (mins 4095, maxes 0), records the start
time and duration, and marks the session active, leaving the committed
`s_calibration` untouched. -/
theorem c5_start_calibration (s : DataProcessorState) (duration_ms : Nat)
    (now_ms : Int) :
    (s.s_is_calibrating = true →
       data_processor_start_calibration s duration_ms now_ms =
         (.ESP_ERR_INVALID_STATE, s)) ∧
    (s.s_is_initialized = true → s.s_is_calibrating = false →
       data_processor_start_calibration s duration_ms now_ms =
         (.ESP_OK,
          { s with s_calib_left_min := 4095, s_calib_left_max := 0,
                   s_calib_right_min := 4095, s_calib_right_max := 0,
                   s_calibration_duration_ms := duration_ms,
                   s_calibration_start_time := now_ms,
                   s_is_calibrating := true })) := by
  constructor
  · intro h
    cases hi : s.s_is_initialized <;>
      simp [data_processor_start_calibration, h, hi]
  · intro hi h
    simp [data_processor_start_calibration, hi, h]

/-- Witness for C5: starting on a fresh, idle state succeeds and resets the
capture accumulators. -/
theorem c5_witness :
    data_processor_start_calibration readyState 5000 7 =
      (.ESP_OK,
       { readyState with s_calib_left_min := 4095, s_calib_left_max := 0,
                         s_calib_right_min := 4095, s_calib_right_max := 0,
                         s_calibration_duration_ms := 5000,
                         s_calibration_start_time := 7,
                         s_is_calibrating := true }) :=
  (c5_start_calibration readyState 5000 7).2 rfl rfl

/-- C6: the output pair handed to the Report Sink is always within [0,4095]:
every pair a successful `data_processor_process_espnow_data` call passes to
the sink is bounded by 4095 in both components (and a valid call does pass
one); `normalize_channel` never leaves [0,4095] for any calibration state; and
concretely the payload `[0x01,0x00,0xFF,0x0F]` yields the report `(1, 4095)`
while `[0xFF,0xFF,0xFF,0xFF]` parses to 0xFFFF on both channels and is clamped
to `(4095, 4095)`. -/
theorem c6_report_bounded :
    (∀ (calibrated : Bool) (raw mn mx : Nat), raw ≤ 4095 →
       normalize_channel calibrated raw mn mx ≤ 4095) ∧
    (∀ (s : DataProcessorState) (mac payload : List Nat) (now_ms : Int)
       (sink_ret : esp_err_t),
       s.s_is_initialized = true → 4 ≤ payload.length →
       ((data_processor_process_espnow_data s (some mac) (some payload)
           now_ms sink_ret).2.2).isSome = true) ∧
    (∀ (s : DataProcessorState) (mac payload : List Nat) (now_ms : Int)
       (sink_ret : esp_err_t) (l r : Nat),
       s.s_is_initialized = true → 4 ≤ payload.length →
       (data_processor_process_espnow_data s (some mac) (some payload)
           now_ms sink_ret).2.2 = some (l, r) →
       l ≤ 4095 ∧ r ≤ 4095) ∧
    (data_processor_process_espnow_data readyState (some mac0)
        (some [1, 0, 255, 15]) 0 .ESP_OK).2.2 = some (1, 4095) ∧
    (data_processor_process_espnow_data readyState (some mac0)
        (some [255, 255, 255, 255]) 0 .ESP_OK).2.2 = some (4095, 4095) := by
  refine ⟨fun c raw mn mx h => normalize_channel_le c raw mn mx h,
          ?_, ?_, by decide, by decide⟩
  · intro s mac payload now_ms sink_ret hinit hlen
    have h0 : ¬ payload.length = 0 := by omega
    have h4 : ¬ payload.length < 4 := by omega
    simp [data_processor_process_espnow_data, hinit, h0, h4]
  · intro s mac payload now_ms sink_ret l r hinit hlen heq
    have h0 : ¬ payload.length = 0 := by omega
    have h4 : ¬ payload.length < 4 := by omega
    simp [data_processor_process_espnow_data, hinit, h0, h4] at heq
    obtain ⟨hl, hr⟩ := heq
    constructor
    · rw [← hl]
      exact normalize_channel_le _ _ _ _ (parse_clamped_le payload).1
    · rw [← hr]
      exact normalize_channel_le _ _ _ _ (parse_clamped_le payload).2

/-- Witness for C6: the normalization bound at a concrete calibrated input. -/
theorem c6_witness : normalize_channel true 2000 0 4095 ≤ 4095 :=
  c6_report_bounded.1 true 2000 0 4095 (by decide)

/-- C7: on an initialized state with a non-null sender and a payload of
length ≥ 4, `data_processor_process_espnow_data` returns `ESP_OK`; the entire
result — return value, state and report — is independent of the Report Sink's
return value, so a sink failure changes nothing and the statistics (and
calibration) updates of the call are retained. -/
theorem c7_sink_failure_ignored (s : DataProcessorState) (mac payload : List Nat)
    (now_ms : Int) (sink_ret : esp_err_t)
    (hinit : s.s_is_initialized = true) (hlen : 4 ≤ payload.length) :
    (data_processor_process_espnow_data s (some mac) (some payload) now_ms
        sink_ret).1 = .ESP_OK ∧
    (∀ sink2 : esp_err_t,
       data_processor_process_espnow_data s (some mac) (some payload) now_ms sink2 =
       data_processor_process_espnow_data s (some mac) (some payload) now_ms sink_ret) ∧
    (data_processor_process_espnow_data s (some mac) (some payload) now_ms
        sink_ret).2.1.s_total_packets = (s.s_total_packets + 1) % 2 ^ 32 ∧
    (data_processor_process_espnow_data s (some mac) (some payload) now_ms
        sink_ret).2.1.s_total_bytes = (s.s_total_bytes + payload.length) % 2 ^ 32 := by
  have h0 : ¬ payload.length = 0 := by omega
  have h4 : ¬ payload.length < 4 := by omega
  refine ⟨?_, fun _ => rfl, ?_, ?_⟩
  · simp [data_processor_process_espnow_data, hinit, h0, h4]
  · simp [data_processor_process_espnow_data, hinit, h0, h4]
    exact (calibration_observe_counters _ _ _ _).1
  · simp [data_processor_process_espnow_data, hinit, h0, h4]
    exact (calibration_observe_counters _ _ _ _).2

/-- Witness for C7: a valid packet still returns `ESP_OK` when the sink
reports a failure. -/
theorem c7_witness :
    (data_processor_process_espnow_data readyState (some mac0)
        (some [0, 0, 0, 0]) 0 .ESP_ERR_INVALID_STATE).1 = .ESP_OK :=
  (c7_sink_failure_ignored readyState mac0 [0, 0, 0, 0] 0
    .ESP_ERR_INVALID_STATE rfl (by decide)).1

/-- C8: `data_processor_reset_calibration` is unconditional: from any state it
returns `ESP_OK`, restores the committed range to the identity defaults
(0/4095 on both channels, `calibrated=false`) and deactivates any session,
touching nothing else (in particular it discards, uncommitted, whatever the
capture accumulators hold); and it is idempotent — a second call returns the
identical result. -/
theorem c8_reset_idempotent (s : DataProcessorState) :
    data_processor_reset_calibration s =
      (.ESP_OK,
       { s with s_calibration := { left_min := 0, left_max := 4095,
                                   right_min := 0, right_max := 4095,
                                   calibrated := false },
                s_is_calibrating := false }) ∧
    data_processor_reset_calibration (data_processor_reset_calibration s).2 =
      data_processor_reset_calibration s :=
  ⟨rfl, rfl⟩

/-- C9: `data_processor_set_calibration` applied to the range read back by
`data_processor_get_calibration` (through a non-null buffer) succeeds and
reproduces the whole state exactly: committed range, session fields and
statistics counters are all unchanged. -/
theorem c9_set_get_roundtrip (s : DataProcessorState)
    (buf : clutch_calibration_t) :
    data_processor_set_calibration s
        (data_processor_get_calibration s (some buf)).2 = (.ESP_OK, s) :=
  rfl

/-- C10: `data_processor_get_stats` tolerates every null/non-null combination
of its two out-pointers: it writes the matching counter through each non-null
pointer, writes nothing through a null one, and — as its type shows, returning
no state — mutates nothing and never dereferences a null pointer (the `none`
cases are handled without reading a pointed-to value). -/
theorem c10_get_stats_null_tolerant (s : DataProcessorState) (p b : Nat) :
    data_processor_get_stats s none none = (none, none) ∧
    data_processor_get_stats s (some p) none = (some s.s_total_packets, none) ∧
    data_processor_get_stats s none (some b) = (none, some s.s_total_bytes) ∧
    data_processor_get_stats s (some p) (some b) =
      (some s.s_total_packets, some s.s_total_bytes) :=
  ⟨rfl, rfl, rfl, rfl⟩
